import Mathlib

/-!
Verification of the shopify-to-sheets order export service.

This file gives a shallow embedding of the decision logic of `main.py`
(webhook handler `webhook_orders_updated`, city normalizer
`get_corrected_city`, reconciler sweep `sync_unfulfilled_rows`) together
with the pieces of the Python standard library the code leans on
(`str.strip`/`lower`/`upper`/`title`, `difflib.get_close_matches`),
and proves the documented properties of the service against it.

Modelling conventions:
* a Google-Sheets ledger is a `List (List String)` whose first element is
  the header row; a write to cell `L{idx}` pads the row to 12 cells and
  sets index 11;
* the Sheets and Shopify clients always succeed; the Shopify order fetch
  of the sweep is an oracle `fetch : String → Option Order`, `none`
  standing for both a request failure and an empty `orders` answer
  (the two are handled identically by the source);
* Python dictionaries parsed from JSON become structures whose fields
  carry the `dict.get` defaults used by the source; string truthiness is
  `pyTruthy`;
* Unicode-only behaviour of `str.lower`/`upper`/`title`/`isalpha` is
  modelled on ASCII, which covers every string the proofs evaluate.
-/

namespace ShopifySheets

/-! ## Python string primitives -/

/-- Characters removed by Python `str.strip()` (ASCII whitespace). -/
def pyIsSpace (c : Char) : Bool :=
  c == ' ' || c == '\t' || c == '\n' || c == '\r' || c == '\x0b' || c == '\x0c'

/-- `str.strip()` on a character list: drop whitespace at both ends. -/
def stripChars (l : List Char) : List Char :=
  ((l.dropWhile pyIsSpace).reverse.dropWhile pyIsSpace).reverse

/-- Python `str.strip()`. -/
def pyStrip (s : String) : String := ⟨stripChars s.data⟩

/-- Python `str.lower()` (ASCII). -/
def pyLower (s : String) : String := ⟨s.data.map Char.toLower⟩

/-- Python `str.upper()` (ASCII). -/
def pyUpper (s : String) : String := ⟨s.data.map Char.toUpper⟩

/-- Helper for `pyTitle`: the flag records whether the previous character
was alphabetic. -/
def pyTitleGo : Bool → List Char → List Char
  | _, [] => []
  | prevAlpha, c :: cs =>
    if c.isAlpha then
      (if prevAlpha then c.toLower else c.toUpper) :: pyTitleGo true cs
    else
      c :: pyTitleGo false cs

/-- Python `str.title()` (ASCII): first letter of each alphabetic run
uppercased, the rest lowercased. -/
def pyTitle (s : String) : String := ⟨pyTitleGo false s.data⟩

/-- Python truthiness of an optional string: absent (`None`) and the empty
string are falsy. -/
def pyTruthy : Option String → Bool
  | none => false
  | some s => s ≠ ""

/-- Substring test, Python `pat in s` for strings. -/
def strContainsSub (pat s : List Char) : Bool :=
  (List.range (s.length + 1)).any fun i => (s.drop i).take pat.length == pat

/-- Helper for `pySplitComma`: `acc` is the current field, reversed. -/
def splitCommaGo : List Char → List Char → List String
  | [], acc => [⟨acc.reverse⟩]
  | c :: cs, acc =>
    if c = ',' then ⟨acc.reverse⟩ :: splitCommaGo cs []
    else splitCommaGo cs (c :: acc)

/-- Python `s.split(",")`; in particular `"".split(",") == [""]`. -/
def pySplitComma (s : String) : List String := splitCommaGo s.data []

/-- Python `s.replace(x, "")` for a single-character `x`, the only form
of `str.replace` the source uses. -/
def pyRemoveChar (s : String) (c : Char) : String :=
  ⟨s.data.filter fun x => x ≠ c⟩

/-- Python `s.startswith(pre)` on character lists. -/
def startsWithL : List Char → List Char → Bool
  | [], _ => true
  | _ :: _, [] => false
  | p :: ps, c :: cs => p == c && startsWithL ps cs

/-- Python `s.startswith(pre)`. -/
def pyStartsWith (s pre : String) : Bool := startsWithL pre.data s.data

/-- Python slicing `s[n:]`. -/
def pyDrop (s : String) (n : Nat) : String := ⟨s.data.drop n⟩

/-- Python string comparison `s < t`: lexicographic on code points, a
proper prefix preceding its extensions. -/
def charListLt : List Char → List Char → Bool
  | _, [] => false
  | [], _ :: _ => true
  | a :: as, b :: bs => Nat.blt a.toNat b.toNat || (a == b && charListLt as bs)

/-- Python `s < t` on strings. -/
def pyStrLt (s t : String) : Bool := charListLt s.data t.data

/-! ## The order event

Fields mirror the JSON keys read by `webhook_orders_updated`, each with
the default the source supplies through `dict.get`.  `shipping_address`
collapses `order.get("shipping_address", {})` followed by `.get(key, "")`
into four plain strings; `presentment_amount` collapses
`order.get("presentment_total_price_set", {}).get("shop_money", {})
.get("amount", "")`. -/

structure ShippingAddress where
  mk ::
  name : String
  phone : String
  address1 : String
  city : String
deriving DecidableEq, Repr

structure LineItem where
  mk ::
  quantity : Nat
  title : String
  variant_title : Option String
deriving DecidableEq, Repr

structure Order where
  mk ::
  name : String
  tags : String
  created_at : String
  cancelled_at : Option String
  closed_at : Option String
  fulfillment_status : Option String
  total_outstanding : Option String
  presentment_amount : String
  shipping_address : ShippingAddress
  note : String
  line_items : List LineItem
deriving DecidableEq, Repr

/-! ## difflib

Model of the parts of `difflib` used by `get_corrected_city`:
`SequenceMatcher` with no junk heuristic (city strings are far below the
200-character autojunk threshold) and `get_close_matches(word, names,
n=1, cutoff=0.85)`.  Ratios are exact rationals; for the short strings
involved this agrees with the float arithmetic of CPython. -/

/-- Ascending list of the indices of `c` in `b` (the `b2j` table of
`SequenceMatcher`). -/
def charIndices (b : List Char) (c : Char) : List Nat :=
  (List.range b.length).filter fun j => b.get? j == some c

/-- Inner loop of `find_longest_match` over the ascending index list `js`
of occurrences of `a[i]` in `b`: `j2len` is the previous diagonal-run
table, the result is the updated table together with the best
`(besti, bestj, bestsize)` triple. -/
def flmGo (blo bhi : Nat) (j2len : Nat → Nat) (i : Nat) :
    List Nat → (Nat → Nat) → Nat × Nat × Nat → ((Nat → Nat) × (Nat × Nat × Nat))
  | [], newj2len, best => (newj2len, best)
  | j :: js, newj2len, best =>
    if j < blo then
      flmGo blo bhi j2len i js newj2len best
    else if bhi ≤ j then
      (newj2len, best)
    else
      let k := (if j = 0 then 0 else j2len (j - 1)) + 1
      let newj2len2 : Nat → Nat := fun x => if x = j then k else newj2len x
      let best2 := if best.2.2 < k then (i + 1 - k, j + 1 - k, k) else best
      flmGo blo bhi j2len i js newj2len2 best2

/-- `SequenceMatcher.find_longest_match(alo, ahi, blo, bhi)` with an empty
junk set (the post-loop junk-extension passes of CPython are no-ops in
that case and are omitted). -/
def find_longest_match (a b : List Char) (alo ahi blo bhi : Nat) : Nat × Nat × Nat :=
  let step := fun (st : (Nat → Nat) × (Nat × Nat × Nat)) (i : Nat) =>
    flmGo blo bhi st.1 i (charIndices b (a.getD i ' ')) (fun _ => 0) st.2
  ((List.range' alo (ahi - alo)).foldl step (fun _ => 0, (alo, blo, 0))).2

/-- Total size of the matching blocks of `get_matching_blocks`, computed
by the same longest-match-then-recurse decomposition; `fuel` dominates the
recursion depth and `a.length + b.length + 1` always suffices. -/
def matchingSizeGo (a b : List Char) : Nat → Nat → Nat → Nat → Nat → Nat
  | 0, _, _, _, _ => 0
  | fuel + 1, alo, ahi, blo, bhi =>
    let m := find_longest_match a b alo ahi blo bhi
    let i := m.1
    let j := m.2.1
    let k := m.2.2
    if k = 0 then 0
    else
      k + (if alo < i ∧ blo < j then matchingSizeGo a b fuel alo i blo j else 0)
        + (if i + k < ahi ∧ j + k < bhi then matchingSizeGo a b fuel (i + k) ahi (j + k) bhi else 0)

/-- `SequenceMatcher(None, a, b).ratio()` as an exact rational:
`2 * M / (len(a) + len(b))`, and `1` when both strings are empty. -/
def ratioQ (a b : List Char) : ℚ :=
  let total := a.length + b.length
  if total = 0 then mkRat 1 1
  else
    let m := matchingSizeGo a b (total + 1) 0 a.length 0 b.length
    mkRat (2 * m) total

/-- Python tuple comparison `(r₂, x₂) > (r₁, x₁)` on score/string pairs. -/
def scoredGt (q p : ℚ × String) : Bool :=
  p.1.blt q.1 || (p.1 == q.1 && pyStrLt p.2 q.2)

/-- `difflib.get_close_matches(word, possibilities, n=1, cutoff)`: keep
the candidates whose ratio against `word` clears `cutoff`, then return the
single largest `(ratio, candidate)` pair (earliest on full ties), as
`heapq.nlargest` does. -/
def get_close_matches (word : String) (possibilities : List String) (cutoff : ℚ) :
    List String :=
  let scored := possibilities.filterMap fun x =>
    let r := ratioQ x.data word.data
    if cutoff ≤ r then some (r, x) else none
  match scored with
  | [] => []
  | p :: ps => [(ps.foldl (fun best q => if scoredGt q best then q else best) p).2]

/-! ## City normalization (`get_corrected_city`)

`CITY_ALIASES` and `VALID_CITIES` are loaded from data files that are not
part of the source tree, so they are passed as parameters.  The second
component of the result is the log message of the source with emoji and
quoting dropped; its prefix identifies the branch taken. -/

def get_corrected_city (aliases : List (String × String)) (validCities : List String)
    (input_city : String) (address_hint : String) : String × String :=
  let city_clean := pyLower (pyStrip input_city)
  match aliases.lookup city_clean with
  | some corrected => (corrected, "Matched alias: " ++ input_city ++ " -> " ++ corrected)
  | none =>
    match get_close_matches city_clean validCities (mkRat 85 100) with
    | m :: _ =>
      (pyTitle m, "Fuzzy matched: " ++ input_city ++ " -> " ++ pyTitle m)
    | [] =>
      match validCities.find? (fun city => strContainsSub city.data (pyLower address_hint).data) with
      | some city =>
        (pyTitle city, "Guessed from address: " ++ input_city ++ " -> " ++ pyTitle city)
      | none => (input_city, "Could not match: " ++ input_city)

/-! ## Helpers of `main.py` -/

/-- `TRIGGER_TAG = "pc"`. -/
def TRIGGER_TAG : String := "pc"

/-- `format_phone`: strip separators, then rewrite a Moroccan country
prefix to a leading `0`. -/
def format_phone (phone : String) : String :=
  if phone = "" then ""
  else
    let cleaned := pyRemoveChar (pyRemoveChar (pyRemoveChar (pyRemoveChar phone ' ') '-') '(') ')'
    if pyStartsWith cleaned "+212" then "0" ++ pyDrop cleaned 4
    else if pyStartsWith cleaned "212" then "0" ++ pyDrop cleaned 3
    else if pyStartsWith cleaned "0" then cleaned
    else cleaned

/-- Terminal status computed by the status-marking block of
`webhook_orders_updated` (lines 248-252): cancellation first, then
fulfillment, else the empty marker. -/
def webhook_mark_status (o : Order) : String :=
  if pyTruthy o.cancelled_at then "CANCELLED"
  else if o.fulfillment_status = some "fulfilled" then "FULFILLED"
  else ""

/-- Terminal status computed inside the sweep `sync_unfulfilled_rows`
(lines 179-183); textually the same precedence as the webhook block. -/
def sweep_shopify_status (o : Order) : String :=
  if pyTruthy o.cancelled_at then "CANCELLED"
  else if o.fulfillment_status = some "fulfilled" then "FULFILLED"
  else ""

/-! ## Ledger rows

A ledger is a `List (List String)`; row 1 (the head) is the header.  The
Sheets trimming of trailing empty cells in read answers is not modelled:
rows are returned as stored. -/

/-- Writing the sheet cell `L{idx}` of a row: the row is implicitly
padded with empty cells up to column 12, whose value is replaced. -/
def set_col12 (row : List String) (v : String) : List String :=
  (row ++ List.replicate (12 - row.length) "").set 11 v

/-- The status-marking loop of `webhook_orders_updated` over the data
rows: find the first row whose second cell equals `order_id` and, when
`status` is nonempty, write it to that row's column 12; the loop `break`s
after the first match either way. -/
def mark_rows (order_id status : String) : List (List String) → List (List String)
  | [] => []
  | row :: rest =>
    if 1 < row.length ∧ row.getD 1 "" = order_id then
      (if status ≠ "" then set_col12 row status else row) :: rest
    else
      row :: mark_rows order_id status rest

/-- The whole status-marking pass: the header row is skipped. -/
def mark_status_pass (order_id status : String) (rows : List (List String)) :
    List (List String) :=
  match rows with
  | [] => []
  | header :: dataRows => header :: mark_rows order_id status dataRows

/-- The duplicate-export guard: the set of stripped second-column values
of every data row that has more than one cell (lines 277-281). -/
def existing_order_ids (rows : List (List String)) : List String :=
  (rows.drop 1).filterMap fun row =>
    if 1 < row.length then some (pyStrip (row.getD 1 "")) else none

/-- Model of `datetime.strptime(s, "%Y-%m-%dT%H:%M:%S%z")` followed by
`strftime("%Y-%m-%d %H:%M")`, for the `±HH:MM` offset shape Shopify
sends; `none` is the `ValueError` that aborts the export block.  Field
range validation (month at most 12, and so on) is not modelled. -/
def parse_created_at (s : String) : Option String :=
  let cs := s.data
  let c := fun i => cs.getD i ' '
  let digitAt := fun i => (c i).isDigit
  if cs.length = 25 ∧ digitAt 0 ∧ digitAt 1 ∧ digitAt 2 ∧ digitAt 3 ∧ c 4 = '-' ∧
      digitAt 5 ∧ digitAt 6 ∧ c 7 = '-' ∧ digitAt 8 ∧ digitAt 9 ∧ c 10 = 'T' ∧
      digitAt 11 ∧ digitAt 12 ∧ c 13 = ':' ∧ digitAt 14 ∧ digitAt 15 ∧ c 16 = ':' ∧
      digitAt 17 ∧ digitAt 18 ∧ (c 19 = '+' ∨ c 19 = '-') ∧ digitAt 20 ∧ digitAt 21 ∧
      c 22 = ':' ∧ digitAt 23 ∧ digitAt 24 then
    some ⟨[c 0, c 1, c 2, c 3, '-', c 5, c 6, '-', c 8, c 9, ' ',
           c 11, c 12, ':', c 14, c 15]⟩
  else none

/-- The row built by the export block (lines 299-329): eleven data cells,
then padding with empty strings and truncation to twelve cells.  The
eleventh data cell is the city-correction log message (the source binds
both `notes`, the order note, and `note`, the message, and appends both).
The dead `isinstance(corrected_city, list)` branch is omitted. -/
def build_sheet_row (aliases : List (String × String)) (validCities : List String)
    (o : Order) (order_id created_at_fmt : String) : List String :=
  let sa := o.shipping_address
  let shipping_phone := format_phone sa.phone
  let cc := get_corrected_city aliases validCities sa.city sa.address1
  let total_price :=
    if pyTruthy o.total_outstanding then o.total_outstanding.getD ""
    else o.presentment_amount
  let line_items := String.intercalate ", " (o.line_items.map fun item =>
    toString item.quantity ++ "x " ++
      (match item.variant_title with
       | some v => v
       | none => item.title))
  let row := [created_at_fmt, order_id, sa.name, shipping_phone, sa.address1,
              total_price, cc.1, line_items, o.note, o.tags, cc.2]
  (row ++ List.replicate 12 "").take 12

/-! ## The reconciler sweep (`sync_unfulfilled_rows`)

Phase 1 walks the data rows, resolving each nonempty second-column
reference through the Shopify fetch oracle, with an in-sweep cache keyed
by the (unstripped) reference; a successful resolution is cached, a
failed one is not.  Phase 1 writes drifted status markers cell by cell,
but phase 2 then clears the sheet and rewrites it from the row list read
at the start of the sweep, so those cell writes do not survive into the
sweep's result; the model therefore only records which references were
fetched.  Phase 2 partitions the snapshot's data rows by their column-12
marker and rewrites the sheet as header, terminal rows, then the rest. -/

/-- Phase 1: the list of references for which an upstream fetch request
is issued, in order; `cache` is the in-sweep order cache. -/
def sweep_fetch_log_go (fetch : String → Option Order) :
    List (List String) → List (String × Order) → List String → List String
  | [], _, log => log
  | row :: rest, cache, log =>
    let order_id := row.getD 1 ""
    if order_id = "" then sweep_fetch_log_go fetch rest cache log
    else
      match cache.lookup order_id with
      | some _ => sweep_fetch_log_go fetch rest cache log
      | none =>
        match fetch order_id with
        | none => sweep_fetch_log_go fetch rest cache (log ++ [order_id])
        | some o => sweep_fetch_log_go fetch rest ((order_id, o) :: cache) (log ++ [order_id])

/-- Phase 2's loop: append each data row to the `fulfilled` or the
`unfulfilled` accumulator according to its column-12 marker. -/
def sweep_partition_go : List (List String) →
    List (List String) × List (List String) →
    List (List String) × List (List String)
  | [], acc => acc
  | row :: rest, acc =>
    let status := pyUpper (pyStrip (row.getD 11 ""))
    if ["FULFILLED", "CANCELLED"].contains status then
      sweep_partition_go rest (acc.1 ++ [row], acc.2)
    else
      sweep_partition_go rest (acc.1, acc.2 ++ [row])

/-- `sync_unfulfilled_rows`: result sheet and fetch log.  A sheet with at
most a header is left untouched and causes no fetch. -/
def sync_unfulfilled_rows (fetch : String → Option Order)
    (rows : List (List String)) : List (List String) × List String :=
  if rows.length ≤ 1 then (rows, [])
  else
    let log := sweep_fetch_log_go fetch (rows.drop 1) [] []
    let parts := sweep_partition_go (rows.drop 1) ([], [])
    (rows.take 1 ++ parts.1 ++ parts.2, log)

/-! ## The webhook handler (`webhook_orders_updated`) -/

/-- Responses the handler can produce.  `badRequest` is the
`HTTPException(400)` for a missing or unrecognized shop domain; the other
three are `JSONResponse`s with HTTP status 200 whose JSON bodies are,
respectively, a skipped marker, a sheet-read-failure error object, and a
success marker.  `sheetReadError` is unreachable in this model because
ledger reads always succeed. -/
inductive WebhookResponse where
  | badRequest
  | skipped
  | sheetReadError
  | success
deriving DecidableEq, Repr

/-- HTTP status code of each response. -/
def status_code : WebhookResponse → Nat
  | .badRequest => 400
  | _ => 200

/-- The body of the handler after routing: mark statuses, gate on the
trigger tag, deduplicate against a fresh read of the sheet, gate on
terminal state, build and append the row, then run the sweep for the
store.  An unparseable `created_at` aborts only the append (the source
catches the exception and still falls through to the sweep and the
success response). -/
def orders_updated_core (aliases : List (String × String)) (validCities : List String)
    (fetch : String → Option Order) (o : Order) (rows : List (List String)) :
    List (List String) × WebhookResponse :=
  let order_id := pyStrip o.name
  let current_tags := (pySplitComma o.tags).map fun t => pyLower (pyStrip t)
  let rows1 := mark_status_pass order_id (webhook_mark_status o) rows
  if ¬ current_tags.contains TRIGGER_TAG then (rows1, .skipped)
  else if (existing_order_ids rows1).contains order_id then (rows1, .skipped)
  else if o.fulfillment_status = some "fulfilled" ∨ pyTruthy o.cancelled_at ∨
      pyTruthy o.closed_at then (rows1, .skipped)
  else
    let rows2 :=
      match parse_created_at o.created_at with
      | none => rows1
      | some ts => rows1 ++ [build_sheet_row aliases validCities o order_id ts]
    ((sync_unfulfilled_rows fetch rows2).1, .success)

/-- An inbound request after body parsing.  `hmac_valid` records whether
`verify_shopify_webhook(body, x_shopify_hmac_sha256)` would hold for the
request; the source defines that helper (an HMAC-SHA256 constant-time
compare) but `webhook_orders_updated` never calls it, so the field is
deliberately unread below. -/
structure WebhookRequest where
  mk ::
  shop_domain : Option String
  hmac_valid : Bool
  order : Order
deriving Repr

/-- The full handler: reject with 400 when the shop-domain header is
falsy or not a key of `SHOP_DOMAIN_TO_SHEET` (modelled by `domains`),
otherwise run the core on the store's ledger. -/
def webhook_orders_updated (aliases : List (String × String)) (validCities : List String)
    (fetch : String → Option Order) (domains : List String)
    (req : WebhookRequest) (rows : List (List String)) :
    List (List String) × WebhookResponse :=
  match req.shop_domain with
  | none => (rows, .badRequest)
  | some d =>
    if d = "" ∨ ¬ domains.contains d then (rows, .badRequest)
    else orders_updated_core aliases validCities fetch req.order rows

/-! ## Derived notions used by the theorems -/

/-- A data row carries the reference `r` when it has more than one cell
and its stripped second cell is `r` — the notion the duplicate-export
guard of the handler tests. -/
def ref_cell (row : List String) (r : String) : Bool :=
  decide (1 < row.length ∧ pyStrip (row.getD 1 "") = r)

/-- Number of data rows of a ledger carrying the reference `r`. -/
def count_ref (rows : List (List String)) (r : String) : Nat :=
  (rows.drop 1).countP fun row => ref_cell row r

/-- A row whose column-12 marker, stripped and uppercased, is terminal. -/
def row_is_terminal (row : List String) : Bool :=
  ["FULFILLED", "CANCELLED"].contains (pyUpper (pyStrip (row.getD 11 "")))

/-! ## Concrete instances used to witness the theorems -/

/-- A fetch oracle for which every upstream request fails (or returns an
empty order list). -/
def c_fetch_none : String → Option Order := fun _ => none

/-- A header row. -/
def c_hdr : List String :=
  ["created_at", "order", "name", "phone", "address1", "price",
   "city", "items", "note", "tags", "note2", "status"]

/-- A plain exportable order: trigger tag, no terminal state. -/
def c_order : Order :=
  Order.mk "#1001" "pc" "2023-01-02T03:04:05+00:00" none none none
    (some "199.99") "250.00" (ShippingAddress.mk "" "" "" "") "" []

/-- An order without the trigger tag that was cancelled upstream. -/
def c3_order : Order :=
  Order.mk "#77" "x" "2023-01-02T03:04:05+00:00" (some "2023-05-01") none none
    none "" (ShippingAddress.mk "" "" "" "") "" []

/-- An eleven-cell ledger data row for order `#77` with no status marker. -/
def c3_row : List String :=
  ["2023-01-01 00:00", "#77", "n", "p", "a", "9", "c", "it", "no", "x", "m"]

/-- A webhook request with a known shop domain and an invalid signature. -/
def c_req_bad_sig : WebhookRequest :=
  WebhookRequest.mk (some "fdd92b-2e.myshopify.com") false c_order

/-- The same request with a valid signature. -/
def c_req_good_sig : WebhookRequest :=
  WebhookRequest.mk (some "fdd92b-2e.myshopify.com") true c_order

/-- A request carrying the tagless cancelled order. -/
def c9_req : WebhookRequest :=
  WebhookRequest.mk (some "fdd92b-2e.myshopify.com") true c3_order

/-- A data row already marked FULFILLED. -/
def c7_term_row : List String :=
  ["d", "#9", "", "", "", "", "", "", "", "", "", "FULFILLED"]

/-- A second, unmarked data row for the same order `#9`. -/
def c7_open_row : List String :=
  ["d", "#9", "", "", "", "", "", "", "", "", "", ""]

/-- An upstream answer for order `#9`. -/
def c7_order : Order :=
  Order.mk "#9" "pc" "2023-01-02T03:04:05+00:00" none none (some "fulfilled")
    none "" (ShippingAddress.mk "" "" "" "") "" []

/-- A fetch oracle resolving exactly order `#9`. -/
def c7_fetch : String → Option Order :=
  fun s => if s = "#9" then some c7_order else none

/-- An order that is both cancelled and fulfilled upstream. -/
def c8_order : Order :=
  Order.mk "#5" "pc" "2023-01-02T03:04:05+00:00" (some "2023-05-01") none
    (some "fulfilled") none "" (ShippingAddress.mk "" "" "" "") "" []

/-- A data row with a lower-case padded terminal marker. -/
def c6_term_row : List String :=
  ["d", "#21", "", "", "", "", "", "", "", "", "", " fulfilled "]

/-- A data row with an open (empty) marker. -/
def c6_open_row : List String :=
  ["d", "#22", "", "", "", "", "", "", "", "", "", ""]

/-! ## Lemmas about `pyStrip` -/

theorem dropWhile_head_false (p : Char → Bool) :
    ∀ (l : List Char) (c : Char), (l.dropWhile p).head? = some c → p c = false := by
  intro l
  induction l with
  | nil => intro c h; simp [List.dropWhile] at h
  | cons a t ih =>
    intro c h
    by_cases ha : p a
    · exact ih c (by simpa [List.dropWhile, ha] using h)
    · simp [List.dropWhile, ha] at h
      simpa [← h] using ha

theorem dropWhile_of_head_false (p : Char → Bool) (l : List Char)
    (h : ∀ c, l.head? = some c → p c = false) : l.dropWhile p = l := by
  cases l with
  | nil => rfl
  | cons a t => simp [List.dropWhile, h a rfl]

theorem dropWhile_dropWhile (p : Char → Bool) (l : List Char) :
    (l.dropWhile p).dropWhile p = l.dropWhile p :=
  dropWhile_of_head_false p _ (dropWhile_head_false p l)

theorem stripChars_idem (l : List Char) : stripChars (stripChars l) = stripChars l := by
  unfold stripChars
  set d1 := l.dropWhile pyIsSpace with hd1
  set Y := d1.reverse.dropWhile pyIsSpace with hY
  have hYdrop : Y.dropWhile pyIsSpace = Y := by
    rw [hY]; exact dropWhile_dropWhile _ _
  have hstepA : Y.reverse.dropWhile pyIsSpace = Y.reverse := by
    apply dropWhile_of_head_false
    intro c hc
    rcases Y.eq_nil_or_concat with hnil | ⟨Y0, y, hcat⟩
    · rw [hnil] at hc; simp at hc
    · have hlast : Y.reverse.head? = some y := by
        rw [hcat]; simp
      rw [hlast] at hc
      have hyc : y = c := by injection hc
      have hmem : d1.reverse = List.takeWhile pyIsSpace d1.reverse ++ Y :=
        (List.takeWhile_append_dropWhile pyIsSpace d1.reverse).symm
      have hd1eq : d1 = Y.reverse ++ (List.takeWhile pyIsSpace d1.reverse).reverse := by
        have h2 := congrArg List.reverse hmem
        simpa using h2
      have hhd : d1.head? = some y := by
        rw [hd1eq, hcat]
        simp
      rw [hyc] at hhd
      exact dropWhile_head_false pyIsSpace l c hhd
  rw [hstepA, List.reverse_reverse, hYdrop]

theorem pyStrip_idem (s : String) : pyStrip (pyStrip s) = pyStrip s :=
  congrArg String.mk (stripChars_idem s.data)

/-! ## Lemmas about the status-marking pass -/

theorem set_col12_length (row : List String) (v : String) :
    (set_col12 row v).length = max row.length 12 := by
  simp [set_col12]
  omega

theorem set_col12_getD1 (row : List String) (v : String) (h : 1 < row.length) :
    (set_col12 row v).getD 1 "" = row.getD 1 "" := by
  unfold set_col12
  rw [List.getD_eq_getElem?_getD, List.getD_eq_getElem?_getD]
  rw [List.getElem?_set_ne (by omega)]
  rw [List.getElem?_append_left (by omega)]

theorem ref_cell_set_col12 (row : List String) (v r : String) (h : 1 < row.length) :
    ref_cell (set_col12 row v) r = ref_cell row r := by
  unfold ref_cell
  rw [set_col12_getD1 row v h, set_col12_length]
  simp [h]

theorem mark_rows_countP (order_id status r : String) :
    ∀ l : List (List String),
      (mark_rows order_id status l).countP (fun row => ref_cell row r) =
        l.countP fun row => ref_cell row r := by
  intro l
  induction l with
  | nil => rfl
  | cons row rest ih =>
    by_cases hm : 1 < row.length ∧ row.getD 1 "" = order_id
    · by_cases hs : status ≠ ""
      · simp only [mark_rows, if_pos hm, if_pos hs, List.countP_cons,
          ref_cell_set_col12 row status r hm.1]
      · simp only [mark_rows, if_pos hm, if_neg hs, List.countP_cons]
    · simp only [mark_rows, if_neg hm, List.countP_cons, ih]

theorem mark_rows_length (order_id status : String) :
    ∀ l : List (List String), (mark_rows order_id status l).length = l.length := by
  intro l
  induction l with
  | nil => rfl
  | cons row rest ih =>
    by_cases hm : 1 < row.length ∧ row.getD 1 "" = order_id
    · simp only [mark_rows, if_pos hm, List.length_cons]
    · simp only [mark_rows, if_neg hm, List.length_cons, ih]

theorem mark_status_pass_count (order_id status : String) (rows : List (List String))
    (r : String) : count_ref (mark_status_pass order_id status rows) r = count_ref rows r := by
  cases rows with
  | nil => rfl
  | cons h t => simpa [mark_status_pass, count_ref] using mark_rows_countP order_id status r t

theorem mark_status_pass_length (order_id status : String) (rows : List (List String)) :
    (mark_status_pass order_id status rows).length = rows.length := by
  cases rows with
  | nil => rfl
  | cons h t => simp [mark_status_pass, mark_rows_length]

theorem mark_status_pass_ne_nil (order_id status : String) (rows : List (List String))
    (h : rows ≠ []) : mark_status_pass order_id status rows ≠ [] := by
  cases rows with
  | nil => exact absurd rfl h
  | cons hd t => simp [mark_status_pass]

/-! ## Lemmas about the duplicate-export guard -/

theorem existing_contains_iff (rows : List (List String)) (r : String) :
    (existing_order_ids rows).contains r = true ↔ 0 < count_ref rows r := by
  unfold existing_order_ids count_ref
  rw [List.contains_iff_exists_mem_beq]
  rw [List.countP_pos_iff]
  constructor
  · rintro ⟨x, hx, hbeq⟩
    obtain ⟨row, hrow, hcell⟩ := List.mem_filterMap.mp hx
    refine ⟨row, hrow, ?_⟩
    by_cases hlen : 1 < row.length
    · rw [if_pos hlen] at hcell
      have hx2 : pyStrip (row.getD 1 "") = x := by injection hcell
      have hxr : r = x := eq_of_beq hbeq
      show ref_cell row r = true
      unfold ref_cell
      exact decide_eq_true ⟨hlen, hx2.trans hxr.symm⟩
    · rw [if_neg hlen] at hcell
      exact absurd hcell (by simp)
  · rintro ⟨row, hrow, hcell⟩
    have hc := of_decide_eq_true hcell
    refine ⟨r, ?_, by simp⟩
    apply List.mem_filterMap.mpr
    exact ⟨row, hrow, by rw [if_pos hc.1, hc.2]⟩

/-! ## Lemmas about the sweep -/

theorem countP_filter_split (p q : List String → Bool) (l : List (List String)) :
    (l.filter q).countP p + (l.filter (fun a => !q a)).countP p = l.countP p := by
  induction l with
  | nil => rfl
  | cons a t ih =>
    by_cases hq : q a
    · by_cases hp : p a
      · simp [List.filter_cons, List.countP_cons, hq, hp, ← ih]
        omega
      · simp [List.filter_cons, List.countP_cons, hq, hp, ← ih]
    · by_cases hp : p a
      · simp [List.filter_cons, List.countP_cons, hq, hp, ← ih]
        omega
      · simp [List.filter_cons, List.countP_cons, hq, hp, ← ih]

theorem sweep_partition_go_eq (l : List (List String)) :
    ∀ acc : List (List String) × List (List String),
      sweep_partition_go l acc =
        (acc.1 ++ l.filter row_is_terminal,
         acc.2 ++ l.filter fun row => !row_is_terminal row) := by
  induction l with
  | nil => intro acc; simp [sweep_partition_go]
  | cons row rest ih =>
    intro acc
    by_cases ht : row_is_terminal row
    · have harm : (["FULFILLED", "CANCELLED"].contains
          (pyUpper (pyStrip (row.getD 11 "")))) = true := ht
      simp only [sweep_partition_go, harm, if_pos rfl, ih, List.filter_cons]
      simp [ht, List.append_assoc]
    · have harm : (["FULFILLED", "CANCELLED"].contains
          (pyUpper (pyStrip (row.getD 11 "")))) = false := by
        simpa [row_is_terminal] using ht
      simp only [sweep_partition_go, harm, ih, List.filter_cons]
      simp [ht, List.append_assoc]

theorem sync_rows_eq (fetch : String → Option Order) (rows : List (List String))
    (h : 1 < rows.length) :
    (sync_unfulfilled_rows fetch rows).1 =
      rows.take 1 ++ (rows.drop 1).filter row_is_terminal
        ++ (rows.drop 1).filter fun row => !row_is_terminal row := by
  unfold sync_unfulfilled_rows
  rw [if_neg (by omega)]
  rw [sweep_partition_go_eq]
  simp [List.append_assoc]

theorem sync_count (fetch : String → Option Order) (rows : List (List String))
    (r : String) : count_ref (sync_unfulfilled_rows fetch rows).1 r = count_ref rows r := by
  by_cases h : rows.length ≤ 1
  · unfold sync_unfulfilled_rows
    rw [if_pos h]
  · rw [sync_rows_eq fetch rows (by omega)]
    cases rows with
    | nil => simp at h
    | cons hd t =>
      unfold count_ref
      simp only [List.take_succ_cons, List.take_zero, List.drop_one, List.tail_cons,
        List.cons_append, List.drop_succ_cons, List.drop_zero]
      rw [List.countP_append]
      exact countP_filter_split _ _ t

theorem sync_ne_nil (fetch : String → Option Order) (rows : List (List String))
    (h : rows ≠ []) : (sync_unfulfilled_rows fetch rows).1 ≠ [] := by
  by_cases hle : rows.length ≤ 1
  · unfold sync_unfulfilled_rows
    rw [if_pos hle]
    exact h
  · rw [sync_rows_eq fetch rows (by omega)]
    cases rows with
    | nil => exact absurd rfl h
    | cons hd t => simp

theorem sweep_log_inv (fetch : String → Option Order) (r : String)
    (hf : fetch r ≠ none) :
    ∀ (rows : List (List String)) (cache : List (String × Order)) (log : List String),
      log.count r ≤ 1 → (1 ≤ log.count r → cache.lookup r ≠ none) →
      (sweep_fetch_log_go fetch rows cache log).count r ≤ 1 := by
  intro rows
  induction rows with
  | nil => intro cache log h1 _; simpa [sweep_fetch_log_go] using h1
  | cons row rest ih =>
    intro cache log h1 h2
    unfold sweep_fetch_log_go
    set oid := row.getD 1 "" with hoid
    by_cases hid : oid = ""
    · rw [if_pos hid]
      exact ih cache log h1 h2
    · rw [if_neg hid]
      cases hc : cache.lookup oid with
      | some o => exact ih cache log h1 h2
      | none =>
        cases hfo : fetch oid with
        | none =>
          have hne : oid ≠ r := by
            intro he; rw [he] at hfo; exact hf hfo
          apply ih cache (log ++ [oid])
          · rw [List.count_append]
            simpa [List.count_singleton, hne] using h1
          · intro hcount
            apply h2
            rw [List.count_append] at hcount
            simpa [List.count_singleton, hne] using hcount
        | some o =>
          by_cases hre : oid = r
          · have hc0 : log.count r = 0 := by
              by_contra hpos
              exact (h2 (by omega)) (by rw [← hre]; exact hc)
            apply ih ((oid, o) :: cache) (log ++ [oid])
            · rw [List.count_append, hc0]
              simp [List.count_singleton, hre]
            · intro _
              rw [hre]
              simp [List.lookup]
          · apply ih ((oid, o) :: cache) (log ++ [oid])
            · rw [List.count_append]
              simpa [List.count_singleton, hre] using h1
            · intro hcount
              have hold : 1 ≤ log.count r := by
                rw [List.count_append] at hcount
                simpa [List.count_singleton, hre] using hcount
              have hlk := h2 hold
              have hbeq : (r == oid) = false := by
                rw [beq_eq_false_iff_ne]
                exact Ne.symm hre
              simp only [List.lookup, hbeq]
              exact hlk

/-! ## Lemmas about the export path -/

theorem build_sheet_row_length (aliases : List (String × String)) (cities : List String)
    (o : Order) (oid ts : String) :
    (build_sheet_row aliases cities o oid ts).length = 12 := rfl

theorem build_sheet_row_getD1 (aliases : List (String × String)) (cities : List String)
    (o : Order) (oid ts : String) :
    (build_sheet_row aliases cities o oid ts).getD 1 "" = oid := rfl

theorem build_sheet_row_getD11 (aliases : List (String × String)) (cities : List String)
    (o : Order) (oid ts : String) :
    (build_sheet_row aliases cities o oid ts).getD 11 "X" = "" := rfl

theorem ref_cell_build_sheet_row (aliases : List (String × String)) (cities : List String)
    (o : Order) (ts : String) :
    ref_cell (build_sheet_row aliases cities o (pyStrip o.name) ts) (pyStrip o.name) = true := by
  unfold ref_cell
  apply decide_eq_true
  refine ⟨?_, ?_⟩
  · rw [build_sheet_row_length]
    omega
  · rw [build_sheet_row_getD1]
    exact pyStrip_idem o.name

/-- Appending the freshly built row to a marked ledger that does not yet
contain the event's reference leaves at most one data row carrying it. -/
theorem count_after_append (aliases : List (String × String)) (cities : List String)
    (o : Order) (rows1 : List (List String)) (r ts : String)
    (hne1 : rows1 ≠ []) (h1 : count_ref rows1 r ≤ 1)
    (hdup : ¬ (existing_order_ids rows1).contains (pyStrip o.name) = true) :
    count_ref (rows1 ++ [build_sheet_row aliases cities o (pyStrip o.name) ts]) r ≤ 1 := by
  obtain ⟨hd, t, rfl⟩ : ∃ hd t, rows1 = hd :: t := by
    cases rows1 with
    | nil => exact absurd rfl hne1
    | cons hd t => exact ⟨hd, t, rfl⟩
  by_cases hrr : r = pyStrip o.name
  · have hzero : count_ref (hd :: t) r = 0 := by
      by_contra hpos
      exact hdup (hrr ▸ (existing_contains_iff (hd :: t) r).mpr (by omega))
    have hcell : ref_cell (build_sheet_row aliases cities o (pyStrip o.name) ts) r = true := by
      rw [hrr]
      exact ref_cell_build_sheet_row aliases cities o ts
    unfold count_ref at hzero ⊢
    simp only [List.cons_append, List.drop_succ_cons, List.drop_zero] at hzero ⊢
    rw [List.countP_append, hzero]
    simp [List.countP_cons, hcell]
  · have hcell : ref_cell (build_sheet_row aliases cities o (pyStrip o.name) ts) r = false := by
      unfold ref_cell
      apply decide_eq_false
      rintro ⟨-, hc⟩
      rw [build_sheet_row_getD1, pyStrip_idem o.name] at hc
      exact hrr hc.symm
    unfold count_ref at h1 ⊢
    simp only [List.cons_append, List.drop_succ_cons, List.drop_zero] at h1 ⊢
    rw [List.countP_append]
    simp only [List.countP_cons, List.countP_nil, hcell]
    simpa using h1

/-- One webhook delivery keeps the ledger nonempty and keeps at most one
data row per reference: the main single-step invariant. -/
theorem core_step_invariant (aliases : List (String × String)) (cities : List String)
    (fetch : String → Option Order) (o : Order) (rows : List (List String)) (r : String)
    (hne : rows ≠ []) (h1 : count_ref rows r ≤ 1) :
    count_ref (orders_updated_core aliases cities fetch o rows).1 r ≤ 1 ∧
      (orders_updated_core aliases cities fetch o rows).1 ≠ [] := by
  have hc1 := mark_status_pass_count (pyStrip o.name) (webhook_mark_status o) rows r
  have hne1 := mark_status_pass_ne_nil (pyStrip o.name) (webhook_mark_status o) rows hne
  unfold orders_updated_core
  by_cases htag : ¬ ((pySplitComma o.tags).map fun t => pyLower (pyStrip t)).contains TRIGGER_TAG
  · rw [if_pos htag]
    exact ⟨by rw [hc1]; exact h1, hne1⟩
  · rw [if_neg htag]
    by_cases hdup : (existing_order_ids
        (mark_status_pass (pyStrip o.name) (webhook_mark_status o) rows)).contains (pyStrip o.name)
    · rw [if_pos hdup]
      exact ⟨by rw [hc1]; exact h1, hne1⟩
    · rw [if_neg hdup]
      by_cases hterm : o.fulfillment_status = some "fulfilled" ∨ pyTruthy o.cancelled_at ∨
          pyTruthy o.closed_at
      · rw [if_pos hterm]
        exact ⟨by rw [hc1]; exact h1, hne1⟩
      · rw [if_neg hterm]
        dsimp only
        constructor
        · rw [sync_count]
          cases hts : parse_created_at o.created_at with
          | none =>
            simp only [hts]
            rw [hc1]
            exact h1
          | some ts =>
            simp only [hts]
            exact count_after_append aliases cities o _ r ts hne1 (by rw [hc1]; exact h1) hdup
        · apply sync_ne_nil
          cases hts : parse_created_at o.created_at with
          | none =>
            simp only [hts]
            exact hne1
          | some ts =>
            simp only [hts]
            simp

/-- Folding webhook deliveries preserves nonemptiness and the at-most-one
row-per-reference bound. -/
theorem fold_count_invariant (aliases : List (String × String)) (cities : List String)
    (fetch : String → Option Order) :
    ∀ (events : List Order) (rows : List (List String)) (r : String),
      rows ≠ [] → count_ref rows r ≤ 1 →
      count_ref (events.foldl
        (fun acc o => (orders_updated_core aliases cities fetch o acc).1) rows) r ≤ 1 := by
  intro events
  induction events with
  | nil =>
    intro rows r _ h0
    exact h0
  | cons o os ih =>
    intro rows r hne h0
    simp only [List.foldl_cons]
    have hstep := core_step_invariant aliases cities fetch o rows r hne h0
    exact ih _ r hstep.2 hstep.1

/-! ## The claims -/

/-- C1: for every order event delivered one or more times with the same
`order_reference` (stripped `name`), a ledger that starts with a header
and at most one data row for that reference still has at most one data
row for it after all deliveries: before appending, the handler re-reads
the ledger, collects the stripped column-2 values of the data rows, and
appends only when the stripped reference is absent. -/
theorem c1_idempotent_export (aliases : List (String × String)) (cities : List String)
    (fetch : String → Option Order) (events : List Order) (rows : List (List String))
    (r : String) (hne : rows ≠ []) (hev : events ≠ [])
    (href : ∀ o ∈ events, pyStrip o.name = r) (h0 : count_ref rows r ≤ 1) :
    count_ref (events.foldl
      (fun acc o => (orders_updated_core aliases cities fetch o acc).1) rows) r ≤ 1 :=
  fold_count_invariant aliases cities fetch events rows r hne h0

/-- Witness for C1: two deliveries of the same exportable order into a
header-only ledger leave a single `#1001` row. -/
theorem c1_witness :
    count_ref ([c_order, c_order].foldl
      (fun acc o => (orders_updated_core [] [] c_fetch_none o acc).1) [c_hdr]) "#1001" ≤ 1 :=
  c1_idempotent_export [] [] c_fetch_none [c_order, c_order] [c_hdr] "#1001"
    (by decide) (by decide) (by decide) (by decide)

/-- C2 (code bug witness): the handler never calls
`verify_shopify_webhook`; a request with a known shop domain and an
invalid HMAC signature is fully processed — the row is appended and the
answer is the 200 success response, not a 403 rejection — and the
handler's outcome does not depend on signature validity at all. -/
theorem c2_signature_never_checked :
    (webhook_orders_updated [] [] c_fetch_none ["fdd92b-2e.myshopify.com"]
        c_req_bad_sig [c_hdr]).2 = WebhookResponse.success ∧
    (webhook_orders_updated [] [] c_fetch_none ["fdd92b-2e.myshopify.com"]
        c_req_bad_sig [c_hdr]).1.length = 2 ∧
    webhook_orders_updated [] [] c_fetch_none ["fdd92b-2e.myshopify.com"]
        c_req_bad_sig [c_hdr] =
      webhook_orders_updated [] [] c_fetch_none ["fdd92b-2e.myshopify.com"]
        c_req_good_sig [c_hdr] := by
  decide

/-- C3 counterexample: an event without the trigger tag, for an order
already in the ledger and cancelled upstream, does write the status
marker cell of the matching row (the marking pass runs before the tag
check), contradicting the claim that no status-marker cell is written. -/
theorem c3_counterexample :
    ((orders_updated_core [] [] c_fetch_none c3_order [c_hdr, c3_row]).1.getD 1 []).getD 11 ""
        = "CANCELLED" ∧
    (([c_hdr, c3_row] : List (List String)).getD 1 []).getD 11 "" = "" ∧
    (orders_updated_core [] [] c_fetch_none c3_order [c_hdr, c3_row]).2
        = WebhookResponse.skipped := by
  decide

/-- C3 amended: for every event whose tag set lacks the trigger tag the
handler answers the skip response and appends no new row — the ledger is
exactly the result of the status-marking pass, which may have written the
status cell of the first row matching the reference. -/
theorem c3_no_trigger_skip (aliases : List (String × String)) (cities : List String)
    (fetch : String → Option Order) (o : Order) (rows : List (List String))
    (h : ((pySplitComma o.tags).map fun t => pyLower (pyStrip t)).contains TRIGGER_TAG
        = false) :
    orders_updated_core aliases cities fetch o rows =
      (mark_status_pass (pyStrip o.name) (webhook_mark_status o) rows,
        WebhookResponse.skipped) ∧
    (orders_updated_core aliases cities fetch o rows).1.length = rows.length := by
  have heq : orders_updated_core aliases cities fetch o rows =
      (mark_status_pass (pyStrip o.name) (webhook_mark_status o) rows,
        WebhookResponse.skipped) := by
    unfold orders_updated_core
    rw [if_pos (fun hcontra => Bool.false_ne_true (h ▸ hcontra))]
  refine ⟨heq, ?_⟩
  rw [heq]
  exact mark_status_pass_length _ _ _

/-- Witness for C3's amended statement at the concrete cancelled order. -/
theorem c3_witness :
    orders_updated_core [] [] c_fetch_none c3_order [c_hdr, c3_row] =
      (mark_status_pass (pyStrip c3_order.name) (webhook_mark_status c3_order)
        [c_hdr, c3_row], WebhookResponse.skipped) :=
  (c3_no_trigger_skip [] [] c_fetch_none c3_order [c_hdr, c3_row] (by decide)).1

/-- C4 counterexample: with `total_outstanding = "199.99"` the price cell
of the built row is the raw string `"199.99"`, not the truncated
`"199"` the claim promises. -/
theorem c4_counterexample :
    (build_sheet_row [] [] c_order "#1001" "2023-01-02 03:04").getD 5 "" = "199.99" ∧
    ¬ (build_sheet_row [] [] c_order "#1001" "2023-01-02 03:04").getD 5 "" = "199" := by
  decide

/-- C4 amended: the price cell of a new row is written through with no
formatting at all: `total_outstanding` when truthy, otherwise the
presentment shop-money amount. -/
theorem c4_price_passthrough (aliases : List (String × String)) (cities : List String)
    (o : Order) (oid ts : String) :
    (build_sheet_row aliases cities o oid ts).getD 5 "" =
      (if pyTruthy o.total_outstanding then o.total_outstanding.getD ""
       else o.presentment_amount) := rfl

/-- C5: city normalization follows exactly the alias, fuzzy (cutoff
0.85), address-hint, passthrough precedence: the alias value is returned
when the lowercased stripped city is a key of the alias map; otherwise
the best fuzzy candidate title-cased when `get_close_matches` is
nonempty; otherwise the first canonical city occurring inside the
lowercased hint, title-cased; otherwise the raw city unchanged.  The
function is total, hence pure and never raising. -/
theorem c5_city_precedence (aliases : List (String × String)) (cities : List String)
    (raw hint : String) :
    (∀ v, aliases.lookup (pyLower (pyStrip raw)) = some v →
      (get_corrected_city aliases cities raw hint).1 = v) ∧
    (aliases.lookup (pyLower (pyStrip raw)) = none →
      ∀ m rest, get_close_matches (pyLower (pyStrip raw)) cities (mkRat 85 100) = m :: rest →
        (get_corrected_city aliases cities raw hint).1 = pyTitle m) ∧
    (aliases.lookup (pyLower (pyStrip raw)) = none →
      get_close_matches (pyLower (pyStrip raw)) cities (mkRat 85 100) = [] →
      ∀ city, cities.find? (fun c => strContainsSub c.data (pyLower hint).data) = some city →
        (get_corrected_city aliases cities raw hint).1 = pyTitle city) ∧
    (aliases.lookup (pyLower (pyStrip raw)) = none →
      get_close_matches (pyLower (pyStrip raw)) cities (mkRat 85 100) = [] →
      cities.find? (fun c => strContainsSub c.data (pyLower hint).data) = none →
      (get_corrected_city aliases cities raw hint).1 = raw) := by
  refine ⟨?_, ?_, ?_, ?_⟩
  · intro v hv
    unfold get_corrected_city
    dsimp only
    rw [hv]
  · intro h1 m rest h2
    unfold get_corrected_city
    dsimp only
    rw [h1, h2]
  · intro h1 h2 city h3
    unfold get_corrected_city
    dsimp only
    rw [h1, h2, h3]
  · intro h1 h2 h3
    unfold get_corrected_city
    dsimp only
    rw [h1, h2, h3]

/-- Witness for C5: the fuzzy branch fires on a real `difflib` ratio
(`kenitrra` against `kenitra`, ratio 14/15). -/
theorem c5_witness :
    (get_corrected_city [] ["kenitra"] "kenitrra" "").1 = pyTitle "kenitra" :=
  (c5_city_precedence [] ["kenitra"] "kenitrra" "").2.1 (by decide) "kenitra" []
    (by decide)

/-- C6: after a sweep on a ledger with data rows, the rewritten ledger is
the original header followed by the rows whose column-12 marker (stripped
and uppercased) is FULFILLED or CANCELLED, then all remaining rows, each
partition keeping its pre-sweep relative order. -/
theorem c6_sweep_stable_partition (fetch : String → Option Order)
    (rows : List (List String)) (h : 1 < rows.length) :
    (sync_unfulfilled_rows fetch rows).1 =
      rows.take 1 ++ (rows.drop 1).filter row_is_terminal
        ++ (rows.drop 1).filter (fun row => !row_is_terminal row) :=
  sync_rows_eq fetch rows h

/-- Witness for C6: a lower-case padded ` fulfilled ` row moves ahead of
the open row, both keeping their order. -/
theorem c6_witness :
    (sync_unfulfilled_rows c_fetch_none [c_hdr, c6_open_row, c6_term_row]).1 =
      [c_hdr, c6_term_row, c6_open_row] := by
  rw [c6_sweep_stable_partition c_fetch_none [c_hdr, c6_open_row, c6_term_row] (by decide)]
  decide

/-- C7 counterexample: the sweep issues an upstream fetch even for a row
whose status marker is already terminal — the log of the sweep over a
single FULFILLED row contains that row's reference. -/
theorem c7_counterexample :
    row_is_terminal c7_term_row = true ∧
    (sync_unfulfilled_rows c_fetch_none [c_hdr, c7_term_row]).2 = ["#9"] := by
  decide

/-- C7 amended: during a sweep every row with a nonempty reference is
resolved regardless of its marker, but a reference the oracle resolves
successfully is fetched at most once per sweep thanks to the in-sweep
cache. -/
theorem c7_resolved_fetched_once (fetch : String → Option Order)
    (rows : List (List String)) (r : String) (h : fetch r ≠ none) :
    ((sync_unfulfilled_rows fetch rows).2).count r ≤ 1 := by
  unfold sync_unfulfilled_rows
  by_cases hle : rows.length ≤ 1
  · rw [if_pos hle]
    simp
  · rw [if_neg hle]
    dsimp only
    apply sweep_log_inv fetch r h (rows.drop 1) [] []
    · simp
    · intro hc
      simp at hc
/-- Witness for C7's amended statement: two rows for `#9` with a
resolving oracle cause a single fetch. -/
theorem c7_witness :
    ((sync_unfulfilled_rows c7_fetch [c_hdr, c7_term_row, c7_open_row]).2).count "#9" ≤ 1 :=
  c7_resolved_fetched_once c7_fetch [c_hdr, c7_term_row, c7_open_row] "#9" (by decide)

/-- C8: an order with `cancelled_at` set (truthy) and
`fulfillment_status = "fulfilled"` resolves to CANCELLED in both the
webhook status-marking block and the reconciler sweep — cancellation is
checked first in both. -/
theorem c8_terminal_precedence (o : Order)
    (hc : pyTruthy o.cancelled_at = true)
    (_hf : o.fulfillment_status = some "fulfilled") :
    webhook_mark_status o = "CANCELLED" ∧ sweep_shopify_status o = "CANCELLED" := by
  unfold webhook_mark_status sweep_shopify_status
  rw [hc]
  simp

/-- Witness for C8 at a concrete cancelled-and-fulfilled order. -/
theorem c8_witness :
    webhook_mark_status c8_order = "CANCELLED" ∧
      sweep_shopify_status c8_order = "CANCELLED" :=
  c8_terminal_precedence c8_order (by decide) (by decide)

/-- A routed, parsed request always ends in the skip or the success
response. -/
theorem core_resp (aliases : List (String × String)) (cities : List String)
    (fetch : String → Option Order) (o : Order) (rows : List (List String)) :
    (orders_updated_core aliases cities fetch o rows).2 = WebhookResponse.skipped ∨
    (orders_updated_core aliases cities fetch o rows).2 = WebhookResponse.success := by
  unfold orders_updated_core
  by_cases htag : ¬ ((pySplitComma o.tags).map fun t => pyLower (pyStrip t)).contains TRIGGER_TAG
  · rw [if_pos htag]
    left
    rfl
  · rw [if_neg htag]
    by_cases hdup : (existing_order_ids
        (mark_status_pass (pyStrip o.name) (webhook_mark_status o) rows)).contains (pyStrip o.name)
    · rw [if_pos hdup]
      left
      rfl
    · rw [if_neg hdup]
      by_cases hterm : o.fulfillment_status = some "fulfilled" ∨ pyTruthy o.cancelled_at ∨
          pyTruthy o.closed_at
      · rw [if_pos hterm]
        left
        rfl
      · rw [if_neg hterm]
        right
        rfl

/-- C9 counterexample: a routed, authenticated, parsed request whose
outcome is the no-trigger-tag skip is answered with the skipped-marker
JSON body, not the success body the claim promises for explicit skips. -/
theorem c9_counterexample :
    (webhook_orders_updated [] [] c_fetch_none ["fdd92b-2e.myshopify.com"] c9_req
      [c_hdr, c3_row]).2 = WebhookResponse.skipped ∧
    WebhookResponse.skipped ≠ WebhookResponse.success := by
  decide

/-- C9 amended: every request with a recognized, nonempty shop domain and
a parsed body is answered with HTTP status 200, the body being either the
skip marker or the success marker; 400 arises only from routing. -/
theorem c9_parsed_always_200 (aliases : List (String × String)) (cities : List String)
    (fetch : String → Option Order) (domains : List String) (req : WebhookRequest)
    (rows : List (List String)) (d : String)
    (hd : req.shop_domain = some d) (hne : d ≠ "") (hdom : domains.contains d = true) :
    status_code (webhook_orders_updated aliases cities fetch domains req rows).2 = 200 ∧
    ((webhook_orders_updated aliases cities fetch domains req rows).2 =
        WebhookResponse.skipped ∨
      (webhook_orders_updated aliases cities fetch domains req rows).2 =
        WebhookResponse.success) := by
  have heq : webhook_orders_updated aliases cities fetch domains req rows =
      orders_updated_core aliases cities fetch req.order rows := by
    unfold webhook_orders_updated
    rw [hd]
    show (if d = "" ∨ ¬ domains.contains d = true then (rows, WebhookResponse.badRequest)
        else orders_updated_core aliases cities fetch req.order rows) =
      orders_updated_core aliases cities fetch req.order rows
    rw [if_neg (by
      rintro (h1 | h2)
      · exact hne h1
      · exact h2 hdom)]
  rw [heq]
  refine ⟨?_, core_resp aliases cities fetch req.order rows⟩
  rcases core_resp aliases cities fetch req.order rows with h | h <;> rw [h] <;> rfl

/-- Witness for C9's amended statement at the concrete skipped request. -/
theorem c9_witness :
    status_code (webhook_orders_updated [] [] c_fetch_none ["fdd92b-2e.myshopify.com"]
        c9_req [c_hdr, c3_row]).2 = 200 ∧
    ((webhook_orders_updated [] [] c_fetch_none ["fdd92b-2e.myshopify.com"]
        c9_req [c_hdr, c3_row]).2 = WebhookResponse.skipped ∨
      (webhook_orders_updated [] [] c_fetch_none ["fdd92b-2e.myshopify.com"]
        c9_req [c_hdr, c3_row]).2 = WebhookResponse.success) :=
  c9_parsed_always_200 [] [] c_fetch_none ["fdd92b-2e.myshopify.com"] c9_req
    [c_hdr, c3_row] "fdd92b-2e.myshopify.com" (by decide) (by decide) (by decide)

/-- C10: every freshly built export row has exactly 12 cells — the 11
data cells padded with empty strings and truncated to length 12 — so its
trailing status-marker cell is the empty string and the row is never
born terminal. -/
theorem c10_new_row_shape (aliases : List (String × String)) (cities : List String)
    (o : Order) (oid ts : String) :
    (build_sheet_row aliases cities o oid ts).length = 12 ∧
    (build_sheet_row aliases cities o oid ts).getD 11 "X" = "" ∧
    row_is_terminal (build_sheet_row aliases cities o oid ts) = false :=
  ⟨rfl, rfl, rfl⟩

end ShopifySheets
